import Mathlib

/-! MagicSpells native engine: the simulation controller.

A shallow embedding of `engine/src/main/cpp/SimulationController.cpp` together with the
two graphics back-ends it drives (`GlContext.cpp`, `VulkanContext.cpp`).

* Every member function of the controller becomes a function from the controller's
  fields to the new fields paired with the list of effects the call produced, in
  program order: diagnostic log lines, factory calls and virtual calls on the back-end.
* `float` values are only stored, copied and forwarded by this code, never computed
  with, so a `float` is represented by its IEEE-754 binary32 bit pattern.
* `uint32_t` values are likewise only stored and forwarded; they are natural numbers.
-/

namespace MagicSpells

/-- A C++ `float`, given by its binary32 bit pattern. -/
structure F32 where
  bits : Nat
deriving DecidableEq, Repr

/-- The literal `1.0f` (sign 0, biased exponent 127, mantissa 0). -/
def F32.one : F32 := ⟨1065353216⟩

/-- Modelled from the spec: `SimTypes.h` is not among the sources. The aggregate
`TouchEmitter {x, y, dx, dy, color}` built in `registerTouch` fixes the order of the
five fields, `emitter.x` and `emitter.y` are read by both back-ends, and the spec names
position (x, y), direction (dx, dy) and a packed color value. -/
structure TouchEmitter where
  x : F32
  y : F32
  dx : F32
  dy : F32
  color : Nat
deriving DecidableEq, Repr

/-- The priorities of `<android/log.h>` that the engine uses. -/
inductive LogPriority where
  | ANDROID_LOG_VERBOSE
  | ANDROID_LOG_INFO
  | ANDROID_LOG_WARN
  | ANDROID_LOG_ERROR
deriving DecidableEq, Repr

/-- One variadic argument of `__android_log_print`: `%u` takes an unsigned, `%f` a float. -/
inductive LogArg where
  | u (n : Nat)
  | f (v : F32)
deriving DecidableEq, Repr

/-- The two concrete classes deriving from the abstract `GraphicsContext`. The stubs
hold no data members, so an instance is determined by its dynamic type. -/
inductive GraphicsContext where
  | GlGraphicsContext
  | VulkanGraphicsContext
deriving DecidableEq, Repr

/-- Effects of a controller call, recorded in program order. -/
inductive Event where
  /-- `__android_log_print(prio, tag, fmt, args...)`. -/
  | log (prio : LogPriority) (tag : String) (fmt : String) (args : List LogArg)
  /-- A call of the factory `createVulkanContext()` together with what it returned. -/
  | createVulkanContext (result : Option GraphicsContext)
  /-- A call of the factory `createGlContext()` together with what it returned. -/
  | createGlContext (result : Option GraphicsContext)
  /-- The virtual call `graphics_->resize(width, height)` dispatched to `g`. -/
  | resize (g : GraphicsContext) (width height : Nat)
  /-- The virtual call `graphics_->addTouchEmitter(emitter)` dispatched to `g`. -/
  | addTouchEmitter (g : GraphicsContext) (emitter : TouchEmitter)
  /-- The virtual call `graphics_->updateFrame(dt, aiStrength)` dispatched to `g`. -/
  | updateFrame (g : GraphicsContext) (dt aiStrength : F32)
deriving DecidableEq, Repr

/-- The fields of `SimulationController` with their default member initialisers
(`SimulationController.h`, lines 24-30); a default-constructed `unique_ptr` is null. -/
structure SimulationController where
  aiStrength_ : F32 := F32.one
  width_ : Nat := 0
  height_ : Nat := 0
  initialized_ : Bool := false
  useVulkan_ : Bool := false
  graphics_ : Option GraphicsContext := none
  emitters_ : List TouchEmitter := []
deriving DecidableEq, Repr

/-! ## The back-ends (`GlContext.cpp`, `VulkanContext.cpp`) -/

/-- The file-local `kTag` of `GlContext.cpp`. -/
def GlGraphicsContext.kTag : String := "GlContext"

/-- The file-local `kTag` of `VulkanContext.cpp`. -/
def VulkanGraphicsContext.kTag : String := "VulkanContext"

/-- The override `GlGraphicsContext::resize`: one log line. -/
def GlGraphicsContext.resize (width height : Nat) : List Event :=
  [Event.log .ANDROID_LOG_INFO GlGraphicsContext.kTag "Resize %ux%u" [.u width, .u height]]

/-- The override `GlGraphicsContext::addTouchEmitter`: one log line. -/
def GlGraphicsContext.addTouchEmitter (emitter : TouchEmitter) : List Event :=
  [Event.log .ANDROID_LOG_INFO GlGraphicsContext.kTag "Emitter at (%f,%f)"
    [.f emitter.x, .f emitter.y]]

/-- The override `GlGraphicsContext::updateFrame`: one log line. -/
def GlGraphicsContext.updateFrame (dt aiStrength : F32) : List Event :=
  [Event.log .ANDROID_LOG_VERBOSE GlGraphicsContext.kTag "Frame dt=%f ai=%f"
    [.f dt, .f aiStrength]]

/-- The override `VulkanGraphicsContext::resize`: one log line. -/
def VulkanGraphicsContext.resize (width height : Nat) : List Event :=
  [Event.log .ANDROID_LOG_INFO VulkanGraphicsContext.kTag "Resize %ux%u" [.u width, .u height]]

/-- The override `VulkanGraphicsContext::addTouchEmitter`: one log line. -/
def VulkanGraphicsContext.addTouchEmitter (emitter : TouchEmitter) : List Event :=
  [Event.log .ANDROID_LOG_INFO VulkanGraphicsContext.kTag "Emitter at (%f,%f)"
    [.f emitter.x, .f emitter.y]]

/-- The override `VulkanGraphicsContext::updateFrame`: one log line. -/
def VulkanGraphicsContext.updateFrame (dt aiStrength : F32) : List Event :=
  [Event.log .ANDROID_LOG_VERBOSE VulkanGraphicsContext.kTag "Frame dt=%f ai=%f"
    [.f dt, .f aiStrength]]

/-- Virtual dispatch of `resize`: the call itself, then the body of the override. -/
def GraphicsContext.resize (g : GraphicsContext) (width height : Nat) : List Event :=
  Event.resize g width height ::
    match g with
    | .GlGraphicsContext => GlGraphicsContext.resize width height
    | .VulkanGraphicsContext => VulkanGraphicsContext.resize width height

/-- Virtual dispatch of `addTouchEmitter`: the call itself, then the body of the override. -/
def GraphicsContext.addTouchEmitter (g : GraphicsContext) (emitter : TouchEmitter) :
    List Event :=
  Event.addTouchEmitter g emitter ::
    match g with
    | .GlGraphicsContext => GlGraphicsContext.addTouchEmitter emitter
    | .VulkanGraphicsContext => VulkanGraphicsContext.addTouchEmitter emitter

/-- Virtual dispatch of `updateFrame`: the call itself, then the body of the override. -/
def GraphicsContext.updateFrame (g : GraphicsContext) (dt aiStrength : F32) : List Event :=
  Event.updateFrame g dt aiStrength ::
    match g with
    | .GlGraphicsContext => GlGraphicsContext.updateFrame dt aiStrength
    | .VulkanGraphicsContext => VulkanGraphicsContext.updateFrame dt aiStrength

/-- The factory of `GlContext.cpp`: always `std::make_unique<GlGraphicsContext>()`. -/
def createGlContext : Option GraphicsContext :=
  some .GlGraphicsContext

/-- The factory of `VulkanContext.cpp`. `android` says whether `__ANDROID__` is defined
for the build: then `std::make_unique<VulkanGraphicsContext>()`, otherwise `nullptr`. -/
def createVulkanContext (android : Bool) : Option GraphicsContext :=
  if android then some .VulkanGraphicsContext else none

/-- What the two factory functions return to the controller during one controller call.
`SimulationController.cpp` sees them only through their declarations and tests both
results against null, so the controller is embedded against arbitrary results; the
results this repository's own factories give are `factories`. -/
structure Factories where
  createVulkanContext : Option GraphicsContext
  createGlContext : Option GraphicsContext
deriving DecidableEq, Repr

/-- The factories as this repository defines them, for a build with (`android = true`)
or without (`android = false`) `__ANDROID__`. -/
def factories (android : Bool) : Factories :=
  { createVulkanContext := createVulkanContext android
    createGlContext := createGlContext }

/-! ## The controller (`SimulationController.cpp`) -/

/-- The file-local `kTag` of `SimulationController.cpp`. -/
def SimulationController.kTag : String := "FluidController"

/-- The private member `ensureContext(useVulkan)`, lines 53-69. -/
def SimulationController.ensureContext (env : Factories) (useVulkan : Bool)
    (s : SimulationController) : SimulationController × List Event :=
  -- if (graphics_) return;
  if s.graphics_.isSome then (s, [])
  else
    -- if (useVulkan) { graphics_ = createVulkanContext(); if (!graphics_) warn; }
    let r1 : SimulationController × List Event :=
      if useVulkan then
        ({ s with graphics_ := env.createVulkanContext },
          Event.createVulkanContext env.createVulkanContext ::
            (if env.createVulkanContext.isSome then []
             else [Event.log .ANDROID_LOG_WARN SimulationController.kTag
                    "Falling back to OpenGL context" []]))
      else (s, [])
    -- if (!graphics_) graphics_ = createGlContext();
    let r2 : SimulationController × List Event :=
      if r1.1.graphics_.isSome then r1
      else
        ({ r1.1 with graphics_ := env.createGlContext },
          r1.2 ++ [Event.createGlContext env.createGlContext])
    -- if (!graphics_) error;
    if r2.1.graphics_.isSome then r2
    else
      (r2.1, r2.2 ++ [Event.log .ANDROID_LOG_ERROR SimulationController.kTag
                        "Unable to create any graphics context" []])

/-- The private member `updateEmitters()`, lines 71-78. -/
def SimulationController.updateEmitters (s : SimulationController) : SimulationController :=
  if s.emitters_.isEmpty then s
  else { s with emitters_ := [] }

/-- The member `initialize(width, height, useVulkan)`, lines 16-25. -/
def SimulationController.initialize (env : Factories) (width height : Nat) (useVulkan : Bool)
    (s : SimulationController) : SimulationController × List Event :=
  let s1 := { s with width_ := width, height_ := height, useVulkan_ := useVulkan }
  let r := SimulationController.ensureContext env useVulkan s1
  let t :=
    match r.1.graphics_ with
    | some g => g.resize r.1.width_ r.1.height_
    | none => []
  ({ r.1 with initialized_ := true }, r.2 ++ t)

/-- The member `registerTouch(x, y, dx, dy, color)`, lines 27-37. -/
def SimulationController.registerTouch (x y dx dy : F32) (color : Nat)
    (s : SimulationController) : SimulationController × List Event :=
  if !s.initialized_ then
    (s, [Event.log .ANDROID_LOG_WARN SimulationController.kTag "Touch before init" []])
  else
    let emitter : TouchEmitter := { x := x, y := y, dx := dx, dy := dy, color := color }
    let s1 := { s with emitters_ := s.emitters_ ++ [emitter] }
    match s1.graphics_ with
    | some g => (s1, g.addTouchEmitter emitter)
    | none => (s1, [])

/-- The member `update(dt)`, lines 39-47. -/
def SimulationController.update (env : Factories) (dt : F32) (s : SimulationController) :
    SimulationController × List Event :=
  let r : SimulationController × List Event :=
    if s.graphics_.isSome then (s, [])
    else SimulationController.ensureContext env s.useVulkan_ s
  let t :=
    match r.1.graphics_ with
    | some g => g.updateFrame dt r.1.aiStrength_
    | none => []
  (SimulationController.updateEmitters r.1, r.2 ++ t)

/-- The member `setAiStrength(value)`, lines 49-51. -/
def SimulationController.setAiStrength (value : F32) (s : SimulationController) :
    SimulationController × List Event :=
  ({ s with aiStrength_ := value }, [])

/-! ## Call sequences -/

/-- One call of a public member function by the host. -/
inductive Call where
  | init (width height : Nat) (useVulkan : Bool)
  | touch (x y dx dy : F32) (color : Nat)
  | frame (dt : F32)
  | setAiStrength (value : F32)
deriving DecidableEq, Repr

/-- Perform one call; `env` gives what the factories return while it runs. -/
def SimulationController.call (env : Factories) (c : Call) (s : SimulationController) :
    SimulationController × List Event :=
  match c with
  | .init width height useVulkan => SimulationController.initialize env width height useVulkan s
  | .touch x y dx dy color => SimulationController.registerTouch x y dx dy color s
  | .frame dt => SimulationController.update env dt s
  | .setAiStrength value => SimulationController.setAiStrength value s

/-- Perform a sequence of calls from left to right, concatenating the effects. -/
def SimulationController.run (prog : List (Factories × Call)) (s : SimulationController) :
    SimulationController × List Event :=
  match prog with
  | [] => (s, [])
  | (env, c) :: rest =>
    let r := SimulationController.call env c s
    let r2 := SimulationController.run rest r.1
    (r2.1, r.2 ++ r2.2)

/-- The event is a factory call. -/
def Event.isCreate : Event → Bool
  | .createVulkanContext _ => true
  | .createGlContext _ => true
  | _ => false

/-- The event is a virtual call on a back-end. -/
def Event.isBackendCall : Event → Bool
  | .resize _ _ _ => true
  | .addTouchEmitter _ _ => true
  | .updateFrame _ _ _ => true
  | _ => false

/-- The event is a call of `resize`. -/
def Event.isResize : Event → Bool
  | .resize _ _ _ => true
  | _ => false

/-- The instances the factory calls of a trace handed out, in order. -/
def created : List Event → List GraphicsContext
  | [] => []
  | .createVulkanContext r :: t => r.toList ++ created t
  | .createGlContext r :: t => r.toList ++ created t
  | _ :: t => created t

/-- The call is `registerTouch`. -/
def Call.isTouch : Call → Bool
  | .touch _ _ _ _ _ => true
  | _ => false

/-- The call is `setAiStrength`. -/
def Call.isSetAiStrength : Call → Bool
  | .setAiStrength _ => true
  | _ => false

/-! ## Auxiliary facts about the private members -/

theorem ensureContext_of_some (env : Factories) (v : Bool) (s : SimulationController)
    (g : GraphicsContext) (h : s.graphics_ = some g) :
    SimulationController.ensureContext env v s = (s, []) := by
  simp [SimulationController.ensureContext, h]

theorem updateEmitters_emitters (s : SimulationController) :
    ( SimulationController.updateEmitters s).emitters_ = [] := by
  unfold SimulationController.updateEmitters
  split
  · rename_i h
    simpa using h
  · rfl

theorem updateEmitters_eq (s : SimulationController) :
    SimulationController.updateEmitters s = { s with emitters_ := [] } := by
  unfold SimulationController.updateEmitters
  split
  · rename_i h
    have h2 : s.emitters_ = [] := by simpa using h
    cases s
    simp_all
  · rfl

theorem run_nil (s : SimulationController) : SimulationController.run [] s = (s, []) := rfl

theorem run_cons (env : Factories) (c : Call) (rest : List (Factories × Call))
    (s : SimulationController) :
    SimulationController.run ((env, c) :: rest) s =
      (( SimulationController.run rest ( SimulationController.call env c s).1).1,
        ( SimulationController.call env c s).2 ++
          ( SimulationController.run rest ( SimulationController.call env c s).1).2) := rfl

theorem run_append (p q : List (Factories × Call)) (s : SimulationController) :
    SimulationController.run (p ++ q) s =
      (( SimulationController.run q ( SimulationController.run p s).1).1,
        ( SimulationController.run p s).2 ++
          ( SimulationController.run q ( SimulationController.run p s).1).2) := by
  induction p generalizing s with
  | nil => simp [run_nil]
  | cons a p ih =>
    obtain ⟨env, c⟩ := a
    simp [run_cons, ih, List.append_assoc]

theorem run_touch_uninitialized (prog : List (Factories × Call))
    (h : ∀ p ∈ prog, p.2.isTouch = true) (s : SimulationController)
    (hs : s.initialized_ = false) :
    SimulationController.run prog s =
      (s, List.replicate prog.length
        (Event.log .ANDROID_LOG_WARN "FluidController" "Touch before init" [])) := by
  induction prog with
  | nil => rfl
  | cons a rest ih =>
    obtain ⟨env, c⟩ := a
    have hc : c.isTouch = true := h (env, c) (List.mem_cons_self _ _)
    have hrest : ∀ p ∈ rest, p.2.isTouch = true := fun p hp => h p (List.mem_cons_of_mem _ hp)
    cases c with
    | touch x y dx dy color =>
      have h1 : SimulationController.call env (.touch x y dx dy color) s =
          (s, [Event.log .ANDROID_LOG_WARN "FluidController" "Touch before init" []]) := by
        simp [SimulationController.call, SimulationController.registerTouch, hs,
          SimulationController.kTag]
      rw [run_cons, h1, ih hrest]
      simp [List.replicate_succ]
    | init width height useVulkan => simp [Call.isTouch] at hc
    | frame dt => simp [Call.isTouch] at hc
    | setAiStrength value => simp [Call.isTouch] at hc

theorem created_append (a b : List Event) : created (a ++ b) = created a ++ created b := by
  induction a with
  | nil => rfl
  | cons e a ih => cases e <;> simp [created, ih]

theorem created_resize (g : GraphicsContext) (w h : Nat) : created (g.resize w h) = [] := by
  cases g <;> rfl

theorem created_addTouchEmitter (g : GraphicsContext) (e : TouchEmitter) :
    created (g.addTouchEmitter e) = [] := by
  cases g <;> rfl

theorem created_updateFrame (g : GraphicsContext) (dt ai : F32) :
    created (g.updateFrame dt ai) = [] := by
  cases g <;> rfl

theorem isCreate_resize (g : GraphicsContext) (w h : Nat) :
    ∀ e ∈ g.resize w h, e.isCreate = false := by
  cases g <;>
    simp [GraphicsContext.resize, GlGraphicsContext.resize, VulkanGraphicsContext.resize,
      Event.isCreate]

theorem isCreate_addTouchEmitter (g : GraphicsContext) (em : TouchEmitter) :
    ∀ e ∈ g.addTouchEmitter em, e.isCreate = false := by
  cases g <;>
    simp [GraphicsContext.addTouchEmitter, GlGraphicsContext.addTouchEmitter,
      VulkanGraphicsContext.addTouchEmitter, Event.isCreate]

theorem isCreate_updateFrame (g : GraphicsContext) (dt ai : F32) :
    ∀ e ∈ g.updateFrame dt ai, e.isCreate = false := by
  cases g <;>
    simp [GraphicsContext.updateFrame, GlGraphicsContext.updateFrame,
      VulkanGraphicsContext.updateFrame, Event.isCreate]

theorem filter_isResize_resize (g : GraphicsContext) (w h : Nat) :
    (g.resize w h).filter Event.isResize = [Event.resize g w h] := by
  cases g <;> rfl

theorem initialize_of_some (env : Factories) (w h : Nat) (v : Bool) (s : SimulationController)
    (g : GraphicsContext) (hg : s.graphics_ = some g) :
    SimulationController.initialize env w h v s =
      ({ s with width_ := w, height_ := h, useVulkan_ := v, initialized_ := true },
        g.resize w h) := by
  simp [ SimulationController.initialize, SimulationController.ensureContext, hg]

theorem update_of_some (env : Factories) (dt : F32) (s : SimulationController)
    (g : GraphicsContext) (hg : s.graphics_ = some g) :
    SimulationController.update env dt s =
      ({ s with emitters_ := [] }, g.updateFrame dt s.aiStrength_) := by
  simp [SimulationController.update, hg, updateEmitters_eq]

theorem registerTouch_of_initialized (x y dx dy : F32) (color : Nat) (s : SimulationController)
    (hi : s.initialized_ = true) :
    SimulationController.registerTouch x y dx dy color s =
      ({ s with emitters_ := s.emitters_ ++ [⟨x, y, dx, dy, color⟩] },
        match s.graphics_ with
        | some g => g.addTouchEmitter ⟨x, y, dx, dy, color⟩
        | none => []) := by
  cases hg : s.graphics_ <;> simp [SimulationController.registerTouch, hi, hg]

/-- A call on a controller that holds a back-end keeps it and calls no factory. -/
theorem call_keeps_backend (env : Factories) (c : Call) (s : SimulationController)
    (g : GraphicsContext) (hg : s.graphics_ = some g) :
    ( SimulationController.call env c s).1.graphics_ = some g ∧
      ∀ e ∈ ( SimulationController.call env c s).2, e.isCreate = false := by
  cases c with
  | init w h v =>
    simp only [SimulationController.call, initialize_of_some env w h v s g hg]
    exact ⟨hg, isCreate_resize g w h⟩
  | touch x y dx dy color =>
    simp only [SimulationController.call, SimulationController.registerTouch]
    cases s.initialized_
    · simp [hg, Event.isCreate]
    · simp only [hg, Bool.not_true, Bool.false_eq_true, if_false]
      exact ⟨trivial, isCreate_addTouchEmitter g _⟩
  | frame dt =>
    simp only [SimulationController.call, update_of_some env dt s g hg]
    exact ⟨hg, isCreate_updateFrame g dt _⟩
  | setAiStrength value =>
    simp [SimulationController.call, SimulationController.setAiStrength, hg]

theorem run_keeps_backend (prog : List (Factories × Call)) (s : SimulationController)
    (g : GraphicsContext) (hg : s.graphics_ = some g) :
    ( SimulationController.run prog s).1.graphics_ = some g ∧
      ∀ e ∈ ( SimulationController.run prog s).2, e.isCreate = false := by
  induction prog generalizing s with
  | nil => simp [run_nil, hg]
  | cons a rest ih =>
    obtain ⟨env, c⟩ := a
    have h1 := call_keeps_backend env c s g hg
    have h2 := ih _ h1.1
    rw [run_cons]
    refine ⟨h2.1, ?_⟩
    intro e he
    rcases List.mem_append.mp he with he | he
    · exact h1.2 e he
    · exact h2.2 e he

/-- The instances handed out by the factories during a call are exactly what the call
adds to the (possibly absent) back-end held before. -/
theorem call_created (env : Factories) (c : Call) (s : SimulationController) :
    s.graphics_.toList ++ created ( SimulationController.call env c s).2 =
      ( SimulationController.call env c s).1.graphics_.toList := by
  cases hg : s.graphics_ with
  | some g =>
    cases c with
    | init w h v =>
      simp [SimulationController.call, initialize_of_some env w h v s g hg, created_resize, hg]
    | touch x y dx dy color =>
      cases hi : s.initialized_
      · simp [SimulationController.call, SimulationController.registerTouch, hi, hg, created]
      · simp [SimulationController.call, registerTouch_of_initialized x y dx dy color s hi, hg,
          created_addTouchEmitter]
    | frame dt =>
      simp [SimulationController.call, update_of_some env dt s g hg, created_updateFrame, hg]
    | setAiStrength value =>
      simp [SimulationController.call, SimulationController.setAiStrength, hg, created]
  | none =>
    obtain ⟨vk, gl⟩ := env
    cases c with
    | init w h v =>
      rcases vk with _ | _ | _ <;> rcases gl with _ | _ | _ <;> cases v <;>
        simp [SimulationController.call, SimulationController.initialize,
          SimulationController.ensureContext, hg, created, created_append, created_resize]
    | touch x y dx dy color =>
      cases hi : s.initialized_ <;>
        simp [SimulationController.call, SimulationController.registerTouch, hi, hg, created]
    | frame dt =>
      rcases vk with _ | _ | _ <;> rcases gl with _ | _ | _ <;> cases hv : s.useVulkan_ <;>
        simp [SimulationController.call, SimulationController.update,
          SimulationController.ensureContext, hg, hv, created, created_append,
          created_updateFrame, updateEmitters_eq]
    | setAiStrength value =>
      simp [SimulationController.call, SimulationController.setAiStrength, hg, created]

theorem run_created (prog : List (Factories × Call)) (s : SimulationController) :
    s.graphics_.toList ++ created ( SimulationController.run prog s).2 =
      ( SimulationController.run prog s).1.graphics_.toList := by
  induction prog generalizing s with
  | nil => simp [run_nil, created]
  | cons a rest ih =>
    obtain ⟨env, c⟩ := a
    rw [run_cons]
    simp only [created_append]
    rw [← List.append_assoc, call_created, ih]

theorem isBackendCall_addTouchEmitter (g : GraphicsContext) (em : TouchEmitter) :
    (g.addTouchEmitter em).filter Event.isBackendCall = [Event.addTouchEmitter g em] := by
  cases g <;> rfl

theorem mem_updateFrame_ai (g : GraphicsContext) (dt ai : F32) :
    ∀ e ∈ g.updateFrame dt ai, ∀ g2 dt2 ai2, e = Event.updateFrame g2 dt2 ai2 → ai2 = ai := by
  cases g <;>
    simp [GraphicsContext.updateFrame, GlGraphicsContext.updateFrame,
      VulkanGraphicsContext.updateFrame]

/-- Every `updateFrame` call made during one controller call carries the AI strength
stored when the controller call began. -/
theorem call_updateFrame_ai (env : Factories) (c : Call) (s : SimulationController) :
    ∀ e ∈ ( SimulationController.call env c s).2, ∀ g dt ai,
      e = Event.updateFrame g dt ai → ai = s.aiStrength_ := by
  cases hg : s.graphics_ with
  | some g0 =>
    cases c with
    | init w h v =>
      rw [SimulationController.call, initialize_of_some env w h v s g0 hg]
      cases g0 <;>
        simp [GraphicsContext.resize, GlGraphicsContext.resize, VulkanGraphicsContext.resize]
    | touch x y dx dy color =>
      cases hi : s.initialized_
      · simp [SimulationController.call, SimulationController.registerTouch, hi]
      · rw [SimulationController.call, registerTouch_of_initialized x y dx dy color s hi, hg]
        cases g0 <;>
          simp [GraphicsContext.addTouchEmitter, GlGraphicsContext.addTouchEmitter,
            VulkanGraphicsContext.addTouchEmitter]
    | frame dt =>
      rw [SimulationController.call, update_of_some env dt s g0 hg]
      exact mem_updateFrame_ai g0 dt s.aiStrength_
    | setAiStrength value =>
      simp [SimulationController.call, SimulationController.setAiStrength]
  | none =>
    obtain ⟨vk, gl⟩ := env
    cases c with
    | init w h v =>
      rcases vk with _ | _ | _ <;> rcases gl with _ | _ | _ <;> cases v <;>
        simp [SimulationController.call, SimulationController.initialize,
          SimulationController.ensureContext, hg, GraphicsContext.resize,
          GlGraphicsContext.resize, VulkanGraphicsContext.resize]
    | touch x y dx dy color =>
      cases hi : s.initialized_ <;>
        simp [SimulationController.call, SimulationController.registerTouch, hi, hg]
    | frame dt =>
      rcases vk with _ | _ | _ <;> rcases gl with _ | _ | _ <;> cases hv : s.useVulkan_ <;>
        simp [SimulationController.call, SimulationController.update,
          SimulationController.ensureContext, hg, hv, GraphicsContext.updateFrame,
          GlGraphicsContext.updateFrame, VulkanGraphicsContext.updateFrame]
    | setAiStrength value =>
      simp [SimulationController.call, SimulationController.setAiStrength]

/-- Only `setAiStrength` changes the stored AI strength. -/
theorem call_aiStrength (env : Factories) (c : Call) (s : SimulationController)
    (hc : c.isSetAiStrength = false) :
    ( SimulationController.call env c s).1.aiStrength_ = s.aiStrength_ := by
  cases hg : s.graphics_ with
  | some g0 =>
    cases c with
    | init w h v => rw [SimulationController.call, initialize_of_some env w h v s g0 hg]
    | touch x y dx dy color =>
      cases hi : s.initialized_
      · simp [SimulationController.call, SimulationController.registerTouch, hi]
      · rw [SimulationController.call, registerTouch_of_initialized x y dx dy color s hi]
    | frame dt => rw [SimulationController.call, update_of_some env dt s g0 hg]
    | setAiStrength value => simp [Call.isSetAiStrength] at hc
  | none =>
    obtain ⟨vk, gl⟩ := env
    cases c with
    | init w h v =>
      rcases vk with _ | _ | _ <;> rcases gl with _ | _ | _ <;> cases v <;>
        simp [SimulationController.call, SimulationController.initialize,
          SimulationController.ensureContext, hg]
    | touch x y dx dy color =>
      cases hi : s.initialized_ <;>
        simp [SimulationController.call, SimulationController.registerTouch, hi, hg]
    | frame dt =>
      rcases vk with _ | _ | _ <;> rcases gl with _ | _ | _ <;> cases hv : s.useVulkan_ <;>
        simp [SimulationController.call, SimulationController.update,
          SimulationController.ensureContext, hg, hv, updateEmitters_eq]
    | setAiStrength value => simp [Call.isSetAiStrength] at hc

theorem run_updateFrame_ai (prog : List (Factories × Call))
    (h : ∀ p ∈ prog, p.2.isSetAiStrength = false) (s : SimulationController) :
    ∀ e ∈ ( SimulationController.run prog s).2, ∀ g dt ai,
      e = Event.updateFrame g dt ai → ai = s.aiStrength_ := by
  induction prog generalizing s with
  | nil => simp [run_nil]
  | cons a rest ih =>
    obtain ⟨env, c⟩ := a
    have hc : c.isSetAiStrength = false := h (env, c) (List.mem_cons_self _ _)
    have hrest : ∀ p ∈ rest, p.2.isSetAiStrength = false :=
      fun p hp => h p (List.mem_cons_of_mem _ hp)
    intro e he g dt ai heq
    rw [run_cons] at he
    rcases List.mem_append.mp he with he | he
    · exact call_updateFrame_ai env c s e he g dt ai heq
    · rw [← call_aiStrength env c s hc]
      exact ih hrest _ e he g dt ai heq

/-- With this repository's factories a call keeps the property that an initialized
controller holds a back-end: `createGlContext` never returns null, so `ensureContext`
always leaves a back-end behind. -/
theorem call_initialized_has_backend (android : Bool) (c : Call) (s : SimulationController)
    (h : s.initialized_ = true → s.graphics_.isSome = true) :
    ( SimulationController.call (factories android) c s).1.initialized_ = true →
      ( SimulationController.call (factories android) c s).1.graphics_.isSome = true := by
  cases hg : s.graphics_ with
  | some g =>
    intro _
    rw [(call_keeps_backend (factories android) c s g hg).1]
    rfl
  | none =>
    have hi : s.initialized_ = false := by
      cases hi : s.initialized_
      · rfl
      · have := h hi
        simp [hg] at this
    cases c with
    | init w h v =>
      cases android <;> cases v <;>
        simp [SimulationController.call, SimulationController.initialize,
          SimulationController.ensureContext, hg, factories, createVulkanContext,
          createGlContext]
    | touch x y dx dy color =>
      simp [SimulationController.call, SimulationController.registerTouch, hi]
    | frame dt =>
      cases android <;> cases hv : s.useVulkan_ <;>
        simp [SimulationController.call, SimulationController.update,
          SimulationController.ensureContext, hg, hv, factories, createVulkanContext,
          createGlContext, updateEmitters_eq]
    | setAiStrength value =>
      simp [SimulationController.call, SimulationController.setAiStrength, hi]

/-- With this repository's factories every state reached from a freshly constructed
controller that is initialized holds a back-end: an initialized controller without a
back-end does not occur. -/
theorem run_initialized_has_backend (android : Bool) (prog : List Call)
    (s : SimulationController) (h : s.initialized_ = true → s.graphics_.isSome = true) :
    ( SimulationController.run (prog.map fun c => (factories android, c)) s).1.initialized_ =
        true →
      ( SimulationController.run (prog.map fun c => (factories android, c)) s).1.graphics_.isSome =
        true := by
  induction prog generalizing s with
  | nil => simpa [run_nil] using h
  | cons c rest ih =>
    rw [List.map_cons, run_cons]
    exact ih _ (call_initialized_has_backend android c s h)

/-! ## The claims -/

/-- C1: whatever the controller's fields are, whatever the factories return and whatever
`dt` is, the pending emitter sequence is empty after `update(dt)`; in particular after
`initialize`, two `registerTouch` calls and one `update` its size is 0. -/
theorem update_empties_pending_emitters :
    (∀ (env : Factories) (dt : F32) (s : SimulationController),
      ( SimulationController.update env dt s).1.emitters_ = []) ∧
    (∀ (e0 e1 e2 e3 : Factories) (w h : Nat) (v : Bool) (x1 y1 dx1 dy1 x2 y2 dx2 dy2 dt : F32)
      (c1 c2 : Nat) (s : SimulationController),
      ( SimulationController.run
          [(e0, .init w h v), (e1, .touch x1 y1 dx1 dy1 c1), (e2, .touch x2 y2 dx2 dy2 c2),
            (e3, .frame dt)] s).1.emitters_.length = 0) := by
  have key : ∀ (env : Factories) (dt : F32) (s : SimulationController),
      ( SimulationController.update env dt s).1.emitters_ = [] := by
    intro env dt s
    simp [SimulationController.update, updateEmitters_emitters]
  refine ⟨key, ?_⟩
  intro e0 e1 e2 e3 w h v x1 y1 dx1 dy1 x2 y2 dx2 dy2 dt c1 c2 s
  simp [run_cons, run_nil, SimulationController.call, key]

/-- C2: a sequence of `registerTouch` calls on a freshly constructed controller (no
`initialize` ever) leaves every field at its default, so the pending sequence stays
empty, and the effects are exactly one "Touch before init" warning per call: no factory
call and no back-end call. -/
theorem touch_before_init_only_warns (prog : List (Factories × Call))
    (h : ∀ p ∈ prog, p.2.isTouch = true) :
    ( SimulationController.run prog {}).1 = {} ∧
    ( SimulationController.run prog {}).1.emitters_ = [] ∧
    ( SimulationController.run prog {}).2 =
      List.replicate prog.length
        (Event.log .ANDROID_LOG_WARN "FluidController" "Touch before init" []) ∧
    (∀ e ∈ ( SimulationController.run prog {}).2,
      e.isBackendCall = false ∧ e.isCreate = false) := by
  have hrun := run_touch_uninitialized prog h {} rfl
  rw [hrun]
  refine ⟨rfl, rfl, rfl, ?_⟩
  intro e he
  have := List.eq_of_mem_replicate he
  subst this
  exact ⟨rfl, rfl⟩

/-- C2 at two `registerTouch` calls on a fresh controller: defaults kept, two warnings. -/
theorem touch_before_init_only_warns_witness :
    ( SimulationController.run
        [(factories true, .touch ⟨1⟩ ⟨2⟩ ⟨3⟩ ⟨4⟩ 5), (factories false, .touch ⟨6⟩ ⟨7⟩ ⟨8⟩ ⟨9⟩ 10)]
        {}).1 = {} ∧
    ( SimulationController.run
        [(factories true, .touch ⟨1⟩ ⟨2⟩ ⟨3⟩ ⟨4⟩ 5), (factories false, .touch ⟨6⟩ ⟨7⟩ ⟨8⟩ ⟨9⟩ 10)]
        {}).2 =
      [Event.log .ANDROID_LOG_WARN "FluidController" "Touch before init" [],
        Event.log .ANDROID_LOG_WARN "FluidController" "Touch before init" []] := by
  have h := touch_before_init_only_warns
    [(factories true, .touch ⟨1⟩ ⟨2⟩ ⟨3⟩ ⟨4⟩ 5), (factories false, .touch ⟨6⟩ ⟨7⟩ ⟨8⟩ ⟨9⟩ 10)]
    (by decide)
  exact ⟨h.1, h.2.2.1⟩

/-- C3: on a freshly constructed controller `initialize(w, h, useVulkan)` selects the
Vulkan back-end exactly when `useVulkan` is set and `createVulkanContext` yields an
instance (which it does exactly on the Android build), and the OpenGL back-end in every
other case; in particular `initialize(800, 600, true)` on a build where
`createVulkanContext` returns null leaves an OpenGL back-end, not a null one. -/
theorem initialize_vulkan_first_gl_fallback :
    (∀ (android : Bool) (w h : Nat) (useVulkan : Bool),
      ( SimulationController.initialize (factories android) w h useVulkan {}).1.graphics_ =
        if useVulkan = true ∧ (createVulkanContext android).isSome = true
        then some GraphicsContext.VulkanGraphicsContext
        else some GraphicsContext.GlGraphicsContext) ∧
    (∀ android : Bool, (createVulkanContext android).isSome = android) ∧
    (createVulkanContext false = none ∧
      ( SimulationController.initialize (factories false) 800 600 true {}).1.graphics_ =
        some GraphicsContext.GlGraphicsContext) := by
  refine ⟨?_, ?_, rfl, by decide⟩
  · intro android w h useVulkan
    cases android <;> cases useVulkan <;>
      simp [ SimulationController.initialize, SimulationController.ensureContext, factories,
        createVulkanContext, createGlContext]
  · intro android
    cases android <;> rfl

/-- C4, counterexample: on the Android build `initialize(800, 600, true)` creates a
Vulkan back-end, and a following `initialize(1024, 768, false)` leaves the Vulkan
back-end in place: the active back-end is not the OpenGL variant. -/
theorem initialize_without_vulkan_not_always_gl :
    ( SimulationController.run [(factories true, .init 800 600 true)] {}).1.graphics_ =
        some GraphicsContext.VulkanGraphicsContext ∧
    ( SimulationController.initialize (factories true) 1024 768 false
        ( SimulationController.run [(factories true, .init 800 600 true)] {}).1).1.graphics_ ≠
      some GraphicsContext.GlGraphicsContext := by
  decide

/-- C4, amended: in every state reached by any sequence of calls (whatever the factories
returned during them), `initialize(w, h, false)` with this repository's factories leaves
the back-end that was already held, and creates the OpenGL one when none was held; so the
active back-end afterwards is the OpenGL variant exactly when no Vulkan back-end was held
before the call. -/
theorem initialize_without_vulkan_backend (prog : List (Factories × Call)) (android : Bool)
    (w h : Nat) :
    (( SimulationController.run prog {}).1.graphics_ = none →
      ( SimulationController.initialize (factories android) w h false
          ( SimulationController.run prog {}).1).1.graphics_ =
        some GraphicsContext.GlGraphicsContext) ∧
    (∀ g, ( SimulationController.run prog {}).1.graphics_ = some g →
      ( SimulationController.initialize (factories android) w h false
          ( SimulationController.run prog {}).1).1.graphics_ = some g) ∧
    (( SimulationController.initialize (factories android) w h false
          ( SimulationController.run prog {}).1).1.graphics_ =
        some GraphicsContext.GlGraphicsContext ↔
      ( SimulationController.run prog {}).1.graphics_ ≠
        some GraphicsContext.VulkanGraphicsContext) := by
  generalize ( SimulationController.run prog {}).1 = s
  have hnone : s.graphics_ = none →
      ( SimulationController.initialize (factories android) w h false s).1.graphics_ =
        some GraphicsContext.GlGraphicsContext := by
    intro hg
    simp [ SimulationController.initialize, SimulationController.ensureContext, hg, factories,
      createGlContext]
  have hsome : ∀ g, s.graphics_ = some g →
      ( SimulationController.initialize (factories android) w h false s).1.graphics_ =
        some g := by
    intro g hg
    rw [initialize_of_some _ w h false s g hg]
    exact hg
  refine ⟨hnone, hsome, ?_⟩
  cases hg : s.graphics_ with
  | none => simp [hnone hg]
  | some g => cases g <;> simp [hsome _ hg]

/-- C5, counterexample: after `initialize(800, 600, false)` a second
`initialize(1024, 768, false)` does call `resize(1024, 768)` on the existing back-end. -/
theorem second_initialize_resizes :
    ( SimulationController.initialize (factories false) 800 600 false {}).1.graphics_ =
        some GraphicsContext.GlGraphicsContext ∧
    Event.resize GraphicsContext.GlGraphicsContext 1024 768 ∈
      ( SimulationController.initialize (factories false) 1024 768 false
        ( SimulationController.initialize (factories false) 800 600 false {}).1).2 := by
  decide

/-- C5, amended: when the controller holds a back-end `g` after a first
`initialize(w1, h1, v1)`, a second `initialize(w2, h2, v2)` calls no factory (the back-end is
not recreated), calls `resize` on `g` exactly once, with `(w2, h2)`, and changes no field
other than the stored width, height and Vulkan preference. -/
theorem second_initialize_keeps_backend_and_resizes (env1 env2 : Factories)
    (s0 : SimulationController) (w1 h1 w2 h2 : Nat) (v1 v2 : Bool) (g : GraphicsContext)
    (hg : ( SimulationController.initialize env1 w1 h1 v1 s0).1.graphics_ = some g) :
    ( SimulationController.initialize env2 w2 h2 v2
        ( SimulationController.initialize env1 w1 h1 v1 s0).1).1 =
      { ( SimulationController.initialize env1 w1 h1 v1 s0).1 with
        width_ := w2, height_ := h2, useVulkan_ := v2 } ∧
    ( SimulationController.initialize env2 w2 h2 v2
        ( SimulationController.initialize env1 w1 h1 v1 s0).1).2 = g.resize w2 h2 ∧
    (( SimulationController.initialize env2 w2 h2 v2
        ( SimulationController.initialize env1 w1 h1 v1 s0).1).2.filter Event.isResize) =
      [Event.resize g w2 h2] ∧
    (∀ e ∈ ( SimulationController.initialize env2 w2 h2 v2
        ( SimulationController.initialize env1 w1 h1 v1 s0).1).2, e.isCreate = false) := by
  have hi : ( SimulationController.initialize env1 w1 h1 v1 s0).1.initialized_ = true := rfl
  generalize ( SimulationController.initialize env1 w1 h1 v1 s0).1 = s at hg hi
  rw [initialize_of_some env2 w2 h2 v2 s g hg]
  refine ⟨?_, rfl, filter_isResize_resize g w2 h2, isCreate_resize g w2 h2⟩
  cases s
  simp_all

/-- C5 (amended) at `initialize(800, 600, true)` then `initialize(1024, 768, false)` on the
Android build: the Vulkan back-end is kept and resized to 1024 x 768. -/
theorem second_initialize_keeps_backend_and_resizes_witness :
    ( SimulationController.initialize (factories true) 1024 768 false
        ( SimulationController.initialize (factories true) 800 600 true {}).1).1 =
      { aiStrength_ := F32.one, width_ := 1024, height_ := 768, initialized_ := true,
        useVulkan_ := false, graphics_ := some GraphicsContext.VulkanGraphicsContext,
        emitters_ := [] } ∧
    ( SimulationController.initialize (factories true) 1024 768 false
        ( SimulationController.initialize (factories true) 800 600 true {}).1).2 =
      GraphicsContext.VulkanGraphicsContext.resize 1024 768 := by
  have h := second_initialize_keeps_backend_and_resizes (factories true) (factories true) {}
    800 600 1024 768 true false GraphicsContext.VulkanGraphicsContext (by decide)
  exact ⟨h.1, h.2.1⟩

/-- C6: along every sequence of calls from a freshly constructed controller the factories
hand out at most one instance in total, namely the back-end the controller holds (zero or
one); and once a back-end is held, every further sequence of calls leaves that same
back-end in the controller and calls no factory, whatever `useVulkan` values later
`initialize` calls carry. -/
theorem backend_created_once_never_replaced :
    (∀ prog : List (Factories × Call),
      created ( SimulationController.run prog {}).2 =
        ( SimulationController.run prog {}).1.graphics_.toList ∧
      (created ( SimulationController.run prog {}).2).length ≤ 1) ∧
    (∀ (prog rest : List (Factories × Call)) (g : GraphicsContext),
      ( SimulationController.run prog {}).1.graphics_ = some g →
        ( SimulationController.run (prog ++ rest) {}).1.graphics_ = some g ∧
        (∀ e ∈ ( SimulationController.run rest ( SimulationController.run prog {}).1).2,
          e.isCreate = false) ∧
        created ( SimulationController.run (prog ++ rest) {}).2 = [g]) := by
  have h1 : ∀ prog : List (Factories × Call),
      created ( SimulationController.run prog {}).2 =
        ( SimulationController.run prog {}).1.graphics_.toList := by
    intro prog
    have := run_created prog {}
    simpa using this
  refine ⟨fun prog => ⟨h1 prog, ?_⟩, ?_⟩
  · rw [h1 prog]
    cases ( SimulationController.run prog {}).1.graphics_ <;> simp
  · intro prog rest g hg
    have hk := run_keeps_backend rest _ g hg
    have hfin : ( SimulationController.run (prog ++ rest) {}).1.graphics_ = some g := by
      rw [run_append]
      exact hk.1
    refine ⟨hfin, hk.2, ?_⟩
    rw [h1 (prog ++ rest), hfin]
    rfl

/-- C6 at a Vulkan back-end created on the Android build and four further calls, among
them `initialize(640, 480, false)`: the Vulkan back-end stays, one instance in total. -/
theorem backend_created_once_never_replaced_witness :
    ( SimulationController.run [(factories true, .init 800 600 true)] {}).1.graphics_ =
      some GraphicsContext.VulkanGraphicsContext ∧
    ( SimulationController.run
        ([(factories true, .init 800 600 true)] ++
          [(factories true, .init 640 480 false), (factories true, .touch ⟨1⟩ ⟨2⟩ ⟨3⟩ ⟨4⟩ 5),
            (factories true, .frame ⟨6⟩), (factories true, .setAiStrength ⟨7⟩)])
        {}).1.graphics_ = some GraphicsContext.VulkanGraphicsContext ∧
    created ( SimulationController.run
        ([(factories true, .init 800 600 true)] ++
          [(factories true, .init 640 480 false), (factories true, .touch ⟨1⟩ ⟨2⟩ ⟨3⟩ ⟨4⟩ 5),
            (factories true, .frame ⟨6⟩), (factories true, .setAiStrength ⟨7⟩)])
        {}).2 = [GraphicsContext.VulkanGraphicsContext] := by
  have h := backend_created_once_never_replaced.2 [(factories true, .init 800 600 true)]
    [(factories true, .init 640 480 false), (factories true, .touch ⟨1⟩ ⟨2⟩ ⟨3⟩ ⟨4⟩ 5),
      (factories true, .frame ⟨6⟩), (factories true, .setAiStrength ⟨7⟩)]
    GraphicsContext.VulkanGraphicsContext (by decide)
  exact ⟨by decide, h.1, h.2.2⟩

/-- C7: on a controller holding a back-end `g`, `update(dt)` calls
`g.updateFrame(dt, aiStrength_)` with the AI strength stored at that moment; the sequence
`update(d1); setAiStrength(v); update(d2)` calls `updateFrame(d1, old strength)` and then
`updateFrame(d2, v)`; when no `setAiStrength` call occurs in a sequence of calls from a
freshly constructed controller, every `updateFrame` call carries the default `1.0f`; and
`setAiStrength(v)` stores any `v` as it is and produces no effect at all. -/
theorem update_passes_current_ai_strength :
    (∀ (env : Factories) (dt : F32) (s : SimulationController) (g : GraphicsContext),
      s.graphics_ = some g →
        ( SimulationController.update env dt s).2 = g.updateFrame dt s.aiStrength_) ∧
    (∀ (e1 e2 e3 : Factories) (v d1 d2 : F32) (s : SimulationController) (g : GraphicsContext),
      s.graphics_ = some g →
        ( SimulationController.run
            [(e1, .frame d1), (e2, .setAiStrength v), (e3, .frame d2)] s).2 =
          g.updateFrame d1 s.aiStrength_ ++ g.updateFrame d2 v ∧
        ( SimulationController.run
            [(e1, .frame d1), (e2, .setAiStrength v), (e3, .frame d2)] s).2.filter
              Event.isBackendCall =
          [Event.updateFrame g d1 s.aiStrength_, Event.updateFrame g d2 v]) ∧
    (∀ prog : List (Factories × Call), (∀ p ∈ prog, p.2.isSetAiStrength = false) →
      ∀ e ∈ ( SimulationController.run prog {}).2, ∀ g dt ai,
        e = Event.updateFrame g dt ai → ai = F32.one) ∧
    (∀ (v : F32) (s : SimulationController),
      SimulationController.setAiStrength v s = ({ s with aiStrength_ := v }, [])) := by
  refine ⟨?_, ?_, ?_, fun _ _ => rfl⟩
  · intro env dt s g hg
    rw [update_of_some env dt s g hg]
  · intro e1 e2 e3 v d1 d2 s g hg
    have h2 : ({ s with emitters_ := [], aiStrength_ := v } : SimulationController).graphics_ =
        some g := hg
    have htrace : ( SimulationController.run
        [(e1, .frame d1), (e2, .setAiStrength v), (e3, .frame d2)] s).2 =
          g.updateFrame d1 s.aiStrength_ ++ g.updateFrame d2 v := by
      simp [run_cons, run_nil, SimulationController.call, update_of_some e1 d1 s g hg,
        SimulationController.setAiStrength, update_of_some e3 d2 _ g h2]
    refine ⟨htrace, ?_⟩
    rw [htrace]
    cases g <;> rfl
  · intro prog h e he g dt ai heq
    exact run_updateFrame_ai prog h {} e he g dt ai heq

/-- C7 at `update; setAiStrength; update` on an initialized controller with the OpenGL
back-end: first the default strength, then the new one. -/
theorem update_passes_current_ai_strength_witness :
    ( SimulationController.run
        [(factories false, .frame ⟨10⟩), (factories false, .setAiStrength ⟨20⟩),
          (factories false, .frame ⟨30⟩)]
        ( SimulationController.initialize (factories false) 800 600 false {}).1).2.filter
          Event.isBackendCall =
      [Event.updateFrame GraphicsContext.GlGraphicsContext ⟨10⟩ F32.one,
        Event.updateFrame GraphicsContext.GlGraphicsContext ⟨30⟩ ⟨20⟩] :=
  (update_passes_current_ai_strength.2.1 (factories false) (factories false) (factories false)
    ⟨20⟩ ⟨10⟩ ⟨30⟩ ( SimulationController.initialize (factories false) 800 600 false {}).1
    GraphicsContext.GlGraphicsContext (by decide)).2

/-- C8: on a freshly constructed controller, with this repository's factories,
`initialize(w, h, useVulkan)` stores `w`, `h` and `useVulkan`, installs a back-end (Vulkan
when `useVulkan` holds on the Android build, OpenGL otherwise), sets the initialized flag,
leaves the AI strength at its default and the pending sequence empty, hands out exactly one
instance, and calls `resize` exactly once, on that back-end and with `(w, h)`. -/
theorem initialize_fresh (android : Bool) (w h : Nat) (useVulkan : Bool) :
    ∃ g : GraphicsContext,
      g = (if useVulkan && android then GraphicsContext.VulkanGraphicsContext
            else GraphicsContext.GlGraphicsContext) ∧
      ( SimulationController.initialize (factories android) w h useVulkan {}).1 =
        { aiStrength_ := F32.one, width_ := w, height_ := h, initialized_ := true,
          useVulkan_ := useVulkan, graphics_ := some g, emitters_ := [] } ∧
      created ( SimulationController.initialize (factories android) w h useVulkan {}).2 = [g] ∧
      ( SimulationController.initialize (factories android) w h useVulkan {}).2.filter
          Event.isBackendCall = [Event.resize g w h] ∧
      ( SimulationController.initialize (factories android) w h useVulkan {}).2.filter
          Event.isResize = [Event.resize g w h] := by
  cases android <;> cases useVulkan <;>
    simp [ SimulationController.initialize, SimulationController.ensureContext, factories,
      createVulkanContext, createGlContext, created, GraphicsContext.resize,
      GlGraphicsContext.resize, VulkanGraphicsContext.resize, Event.isBackendCall,
      Event.isResize]

/-- C9: on an initialized controller `registerTouch(x, y, dx, dy, color)` appends the
emitter `{x, y, dx, dy, color}` at the end of the pending sequence and changes no other
field; with a back-end `g` present its effects are those of one
`g.addTouchEmitter(emitter)` call and nothing else, with no back-end none at all. -/
theorem registerTouch_appends_and_forwards (x y dx dy : F32) (color : Nat)
    (s : SimulationController) (hi : s.initialized_ = true) :
    ( SimulationController.registerTouch x y dx dy color s).1 =
      { s with emitters_ := s.emitters_ ++ [{ x := x, y := y, dx := dx, dy := dy,
                                                color := color }] } ∧
    ( SimulationController.registerTouch x y dx dy color s).1.emitters_.length =
      s.emitters_.length + 1 ∧
    (∀ g, s.graphics_ = some g →
      ( SimulationController.registerTouch x y dx dy color s).2 =
        g.addTouchEmitter { x := x, y := y, dx := dx, dy := dy, color := color } ∧
      ( SimulationController.registerTouch x y dx dy color s).2.filter Event.isBackendCall =
        [Event.addTouchEmitter g { x := x, y := y, dx := dx, dy := dy, color := color }]) ∧
    (s.graphics_ = none → ( SimulationController.registerTouch x y dx dy color s).2 = []) := by
  rw [registerTouch_of_initialized x y dx dy color s hi]
  refine ⟨rfl, by simp, ?_, ?_⟩
  · intro g hg
    rw [hg]
    exact ⟨rfl, isBackendCall_addTouchEmitter g _⟩
  · intro hg
    rw [hg]

/-- C9 at a second touch on an initialized controller with the Vulkan back-end. -/
theorem registerTouch_appends_and_forwards_witness :
    ( SimulationController.registerTouch ⟨1⟩ ⟨2⟩ ⟨3⟩ ⟨4⟩ 5
        ( SimulationController.run
          [(factories true, .init 800 600 true), (factories true, .touch ⟨6⟩ ⟨7⟩ ⟨8⟩ ⟨9⟩ 10)]
          {}).1).1.emitters_ =
      [{ x := ⟨6⟩, y := ⟨7⟩, dx := ⟨8⟩, dy := ⟨9⟩, color := 10 },
        { x := ⟨1⟩, y := ⟨2⟩, dx := ⟨3⟩, dy := ⟨4⟩, color := 5 }] ∧
    ( SimulationController.registerTouch ⟨1⟩ ⟨2⟩ ⟨3⟩ ⟨4⟩ 5
        ( SimulationController.run
          [(factories true, .init 800 600 true), (factories true, .touch ⟨6⟩ ⟨7⟩ ⟨8⟩ ⟨9⟩ 10)]
          {}).1).2.filter Event.isBackendCall =
      [Event.addTouchEmitter GraphicsContext.VulkanGraphicsContext
        { x := ⟨1⟩, y := ⟨2⟩, dx := ⟨3⟩, dy := ⟨4⟩, color := 5 }] := by
  have h := registerTouch_appends_and_forwards ⟨1⟩ ⟨2⟩ ⟨3⟩ ⟨4⟩ 5
    ( SimulationController.run
      [(factories true, .init 800 600 true), (factories true, .touch ⟨6⟩ ⟨7⟩ ⟨8⟩ ⟨9⟩ 10)] {}).1
    (by decide)
  refine ⟨?_, (h.2.2.1 GraphicsContext.VulkanGraphicsContext (by decide)).2⟩
  rw [h.1]
  decide

end MagicSpells
